import Mathlib

/-!
Shallow embedding of `gcf_xlsx_parser/main.py` (class `GCPXLSXParser` and the
two Cloud Function triggers), together with theorems settling the frozen
claims about the specification.

Modelling conventions:
* A spreadsheet cell is `Cell`: missing (`na`, pandas `NaN`/`NaT`),
  a timestamp (`ts`, pandas `Timestamp` with year/month/day), or a string
  (`str`; `dtype=str` parsing yields strings).  A sheet is its raw grid of
  cells (what `xls.parse(sheet, header=None)` yields); `header=0` parsing is
  derived from the grid by splitting off the first row.
* JSON payloads are the inductive `Json` (null, string, array, object).
* External effects (GCS blob existence/download/upload, the Cloud Run POST,
  per-sheet decode exceptions) are an explicit environment `Env`; each
  fallible call is an `Except String` value.  Raised Python exceptions are
  `Except.error` values; `parse`'s `try/except` structure is explicit.
* `json.dumps(..., default=json_serializer)` is modelled structurally:
  dicts become `Json.obj` and lists `Json.arr`, while scalars follow
  CPython's rule that `default` is consulted only for objects the encoder
  cannot serialize itself: strings are emitted natively, a missing cell —
  a float `NaN` under `dtype=str` parsing — is emitted natively as the bare
  `NaN` token (`allow_nan` defaults to true), represented by `Json.nan`,
  and only unserializable objects such as `pd.Timestamp` are routed through
  `json_serializer` (`dumpsScalar`).
* Python `str.replace` (which replaces every occurrence, left to right,
  skipping over the replacement) is `pyReplace` on `List Char`, via a fuel
  counter bounded by the string length so that it computes by `rfl`/`decide`.
-/

namespace GCPXLSXParser

/-- A scalar spreadsheet cell: missing value, a pandas Timestamp (y/m/d), or a
string. -/
inductive Cell where
  | na : Cell
  | ts (y m d : Nat) : Cell
  | str (s : String) : Cell
deriving DecidableEq

/-- JSON values as produced/consumed by the pipeline.  `nan` is the bare
`NaN` token that CPython's `json.dumps` emits for a float NaN (its
`allow_nan` defaults to true); it is not valid JSON, but it is what the
program writes. -/
inductive Json where
  | null : Json
  | nan : Json
  | str (s : String) : Json
  | arr (xs : List Json) : Json
  | obj (kvs : List (String × Json)) : Json

/-- A Python value returned by `GCPXLSXParser.parse`: either a string or the
JSON payload forwarded verbatim from Cloud Run. -/
inductive PyVal where
  | str (s : String) : PyVal
  | json (j : Json) : PyVal

/-- A raw sheet grid: rows of cells, as parsed with `header=None`. -/
abbrev Grid := List (List Cell)

/-- A decoded workbook: sheet names with their raw grids, in workbook order. -/
abbrev Workbook := List (String × Grid)

/-- Observable storage effects of one `parse` invocation: the JSON payload
uploaded to the destination blob (if any) and the lines appended to the
error-log blob. -/
structure Trace where
  destWritten : Option Json := none
  errorLog : List String := []

/-- The external world of one invocation: outcomes of every fallible external
call made by `parse`.  An `Except.error` models the call raising. -/
structure Env where
  /-- Outcome of `blob.exists()` on the source blob. -/
  sourceExists : Except String Bool
  /-- Outcome of `blob.download_as_bytes()`. -/
  download : Except String (List Nat)
  /-- Outcome of `pd.ExcelFile(..., engine="xlrd")` on the bytes. -/
  decodeXls : Except String Workbook
  /-- Outcome of `pd.ExcelFile(..., engine="openpyxl")` on the bytes. -/
  decodeXlsx : Except String Workbook
  /-- Outcome of `requests.post(CLOUD_RUN_URL, ...)` followed by
  `response.json()`: transport/JSON failure, or HTTP status with body. -/
  post : Except String (Nat × Json)
  /-- Per-sheet exception raised by `xls.parse(sheet_name, dtype=str,
  header=0)`, if any. -/
  sheetExc : String → Option String
  /-- Exception raised by the destination `upload_from_string`, if any. -/
  uploadExc : Option String
  /-- Exception raised by the error-log blob write inside `log_error`,
  if any. -/
  logUploadExc : Option String

/-- Python `str()` of a JSON value, abstracted: identity on strings, `None`
for null; the claims never depend on the rendering of nested lists/dicts. -/
def pyStrJson : Json → String
  | Json.null => "None"
  | Json.nan => "nan"
  | Json.str s => s
  | Json.arr _ => "<list>"
  | Json.obj _ => "<dict>"

/-- Single-quote character, built by code point to keep source text plain. -/
def sq : String := (Char.ofNat 39).toString

/-- The `strftime("%Y-%m-%d")` rendering: month and day zero-padded to two
digits (Timestamp years are always four digits). -/
def strftimeYMD (y m d : Nat) : String :=
  toString y ++ "-" ++
    (if m < 10 then "0" ++ toString m else toString m) ++ "-" ++
    (if d < 10 then "0" ++ toString d else toString d)

/-- `GCPXLSXParser.json_serializer` (main.py lines 33-38): Timestamps render
via `strftime("%Y-%m-%d")`, missing values as `None` (JSON null), everything
else via `str(obj)`. -/
def json_serializer : Cell → Json
  | Cell.ts y m d => Json.str (strftimeYMD y m d)
  | Cell.na => Json.null
  | Cell.str s => Json.str s

/-- How `json.dumps(..., default=json_serializer)` actually renders one
scalar cell: the encoder serializes what it can natively and consults
`default` only for unserializable objects.  Strings are emitted natively; a
missing cell — a float `NaN` in a `dtype=str` frame — is serializable
(`allow_nan` defaults to true) and is emitted as the bare `NaN` token, so
`json_serializer`'s `pd.isna` branch is never reached for it; a
`pd.Timestamp` is unserializable, so `default` runs and yields the date
string. -/
def dumpsScalar : Cell → Json
  | Cell.na => Json.nan
  | Cell.str s => Json.str s
  | Cell.ts y m d => json_serializer (Cell.ts y m d)

/-- Number of missing cells in a raw grid, `df.isna().sum().sum()` for the
`header=None` parse of the sheet. -/
def countNa (g : Grid) : Nat :=
  (g.map fun row => (row.filter fun c => c == Cell.na).length).sum

/-- The structured-report sheet names checked by `detect_complexity`. -/
def complexSheetNames : List String := ["overview", "metadata schema", "report"]

/-- Python `str.lower()` (ASCII-relevant part), character by character. -/
def pyLower (s : String) : String := String.mk (s.toList.map Char.toLower)

/-- Python `str.endswith(suffix)`. -/
def pyEndsWith (s sfx : String) : Bool := sfx.toList.isSuffixOf s.toList

/-- `GCPXLSXParser.detect_complexity` (main.py lines 40-50): scan sheets in
order; a sheet with at least one missing cell in its raw grid, or whose
lower-cased name is a known structured-report name, flags the workbook. -/
def detect_complexity : Workbook → Bool
  | [] => false
  | (sheetName, g) :: rest =>
    if 0 < countNa g then true
    else if pyLower sheetName ∈ complexSheetNames then true
    else detect_complexity rest

/-- `GCPXLSXParser.log_error` (main.py lines 52-59): read the existing log,
append the message and a newline, overwrite the blob.  The appended line is
recorded in the trace; a failing write raises. -/
def log_error (env : Env) (t : Trace) (message : String) : Except String Trace :=
  match env.logUploadExc with
  | some e => Except.error e
  | none => Except.ok { t with errorLog := t.errorLog ++ [message] }

/-- Python dictionary `.get` with default, on a JSON object's entries. -/
def getOr (kvs : List (String × Json)) (key : String) (dflt : String) : String :=
  match kvs.lookup key with
  | some v => pyStrJson v
  | none => dflt

/-- `GCPXLSXParser.forward_to_cloud_run` (main.py lines 61-85): POST to the
fixed endpoint; on HTTP 200 return the body; otherwise build an error
descriptor from `response_data.get("error", "Unknown error")`; a transport or
JSON-decode failure (`requests.exceptions.RequestException`) also yields an
error descriptor.  Calling `.get` on a non-dict body raises. -/
def forward_to_cloud_run (env : Env) : Except String Json :=
  match env.post with
  | Except.error e =>
    Except.ok (Json.obj [("error", Json.str ("Failed to communicate with Cloud Run: " ++ e))])
  | Except.ok (status, body) =>
    if status = 200 then Except.ok body
    else
      match body with
      | Json.obj kvs =>
        Except.ok (Json.obj [("error", Json.str ("Cloud Run failed: " ++ getOr kvs "error" "Unknown error"))])
      | _ => Except.error "AttributeError: response payload has no attribute get"

/-- Is a pattern a contiguous sublist of a character list (Python `in` on
strings)? -/
def subOccurs (pat s : List Char) : Bool :=
  (List.range (s.length + 1)).any fun i => pat.isPrefixOf (s.drop i)

/-- Python `needle in j` for a JSON value `j`: key membership for dicts,
element equality for lists, substring for strings; raises `TypeError` on
null. -/
def pyContains (j : Json) (needle : String) : Except String Bool :=
  match j with
  | Json.obj kvs => Except.ok (kvs.any fun kv => kv.1 == needle)
  | Json.arr xs =>
    Except.ok (xs.any fun x => match x with | Json.str s => s == needle | _ => false)
  | Json.str s => Except.ok (subOccurs needle.toList s.toList)
  | Json.null => Except.error "TypeError: argument of type NoneType is not iterable"
  | Json.nan => Except.error "TypeError: argument of type float is not iterable"

/-- A sheet parsed with `header=0`: first row as column labels, remaining
rows as data. -/
structure Frame where
  cols : List Cell
  rows : List (List Cell)

/-- `xls.parse(sheet_name, dtype=str, header=0)` on a raw grid. -/
def frameOf (g : Grid) : Frame :=
  match g with
  | [] => { cols := [], rows := [] }
  | h :: t => { cols := h, rows := t }

/-- Indices of columns kept by `df.dropna(axis=1, how="all")`: a column
survives iff some data row has a non-missing value there (short rows are
NaN-padded, hence `getD`). -/
def keptCols (f : Frame) : List Nat :=
  (List.range f.cols.length).filter fun j =>
    f.rows.any fun r => r.getD j Cell.na != Cell.na

/-- `df.dropna(axis=1, how="all")`: restrict labels and every row to the kept
columns. -/
def dropNaCols (f : Frame) : Frame :=
  { cols := (keptCols f).map fun j => f.cols.getD j Cell.na
    rows := f.rows.map fun r => (keptCols f).map fun j => r.getD j Cell.na }

/-- `df.dropna(axis=0, how="all")`: drop rows whose every value is missing. -/
def dropNaRows (f : Frame) : Frame :=
  { cols := f.cols
    rows := f.rows.filter fun r => r.any fun c => c != Cell.na }

/-- `df.empty` after the two drops. -/
def dfEmpty (f : Frame) : Bool := f.rows.isEmpty || f.cols.isEmpty

/-- Column label rendering for record keys (labels are strings under
`dtype=str`; the other cases are total-function padding). -/
def colName : Cell → String
  | Cell.str s => s
  | Cell.na => "nan"
  | Cell.ts y m d => strftimeYMD y m d

/-- `df.to_dict(orient="records")`: one mapping per row, in row order, column
label to cell value. -/
def toRecords (f : Frame) : List (List (String × Cell)) :=
  f.rows.map fun r => (f.cols.map colName).zip r

/-- The per-sheet processing of main.py lines 123-125 applied to one raw
grid: parse with `header=0`, drop all-null columns, then all-null rows. -/
def processSheet (g : Grid) : Frame := dropNaRows (dropNaCols (frameOf g))

/-- The sheet loop of `parse` (main.py lines 120-137): process sheets in
workbook order, skipping sheets that are empty after the drops; the first
sheet whose parse raises aborts the loop with the logged message. -/
def localConvert (env : Env) : Workbook → Except String (List (String × List (List (String × Cell))))
  | [] => Except.ok []
  | (sheetName, g) :: rest =>
    match env.sheetExc sheetName with
    | some e =>
      Except.error ("Error processing sheet " ++ sq ++ sheetName ++ sq ++ ": " ++ e)
    | none =>
      match localConvert env rest with
      | Except.error m => Except.error m
      | Except.ok tail =>
        let df := processSheet g
        Except.ok (if dfEmpty df then tail else (sheetName, toRecords df) :: tail)

/-- `json.dumps(data_dict, default=json_serializer)` modelled structurally:
the ConversionResult object, every scalar rendered by `dumpsScalar`, i.e.
natively where the encoder can (strings, float NaN) and through the
`default` hook `json_serializer` otherwise. -/
def encodeResult (data : List (String × List (List (String × Cell)))) : Json :=
  Json.obj (data.map fun p =>
    (p.1, Json.arr (p.2.map fun r => Json.obj (r.map fun kv => (kv.1, dumpsScalar kv.2)))))

/-- Lines 98-110 of main.py: choose the engine from the key's suffix and wrap
decode failures in the format-specific `ValueError` message. -/
def decodeWorkbook (env : Env) (src : String) : Except String Workbook :=
  if pyEndsWith src ".xls" then
    match env.decodeXls with
    | Except.ok wb => Except.ok wb
    | Except.error e =>
      Except.error ("Failed to read .xls file. Ensure xlrd==1.2.0 is installed. Error: " ++ e)
  else
    match env.decodeXlsx with
    | Except.ok wb => Except.ok wb
    | Except.error e => Except.error ("Invalid .xlsx file format: " ++ e)

/-- The tail of `parse` from the sheet loop on (main.py lines 119-147): local
conversion, the per-sheet failure return, the `NoData` raise, and the
destination upload. -/
def afterComplex (env : Env) (wb : Workbook) : Except (String × Trace) (PyVal × Trace) :=
  match localConvert env wb with
  | Except.error msg =>
    match log_error env {} msg with
    | Except.ok t => Except.ok (PyVal.str "Failed to process XLSX file.", t)
    | Except.error e => Except.error (e, {})
  | Except.ok data =>
    if data.isEmpty then Except.error ("No valid data found in the Excel file.", {})
    else
      match env.uploadExc with
      | some e => Except.error (e, {})
      | none =>
        Except.ok (PyVal.str "JSON file successfully created in GCS.",
          { destWritten := some (encodeResult data), errorLog := [] })

/-- Lines 112-147 of main.py, from the complexity check on: forward complex
workbooks to Cloud Run, returning a non-error payload verbatim, falling back
to the local loop on an error descriptor; a `TypeError` from the membership
test raises. -/
def complexStage (env : Env) (wb : Workbook) : Except (String × Trace) (PyVal × Trace) :=
  if detect_complexity wb then
    match forward_to_cloud_run env with
    | Except.error e => Except.error (e, {})
    | Except.ok r =>
      match pyContains r "error" with
      | Except.error e => Except.error (e, {})
      | Except.ok true => afterComplex env wb
      | Except.ok false => Except.ok (PyVal.json r, {})
  else afterComplex env wb

/-- The body of `parse`'s `try` block (main.py lines 89-147).  `Except.error`
carries the raised message together with the trace accumulated so far (always
empty: no storage write precedes a raise). -/
def parseInner (env : Env) (src : String) : Except (String × Trace) (PyVal × Trace) :=
  match env.sourceExists with
  | Except.error e => Except.error (e, {})
  | Except.ok false => Except.error ("File " ++ src ++ " does not exist in bucket.", {})
  | Except.ok true =>
    match env.download with
    | Except.error e => Except.error (e, {})
    | Except.ok bytes =>
      if bytes.isEmpty then Except.error ("Downloaded file is empty.", {})
      else
        match decodeWorkbook env src with
        | Except.error e => Except.error (e, {})
        | Except.ok wb => complexStage env wb

/-- The `except` handler of `parse` (main.py lines 149-153): log the
contextual message and return the generic failure string; a failing log write
propagates its exception out of `parse`. -/
def handleParseError (env : Env) (src : String)
    (inner : Except (String × Trace) (PyVal × Trace)) : Except String (PyVal × Trace) :=
  match inner with
  | Except.ok r => Except.ok r
  | Except.error (e, t) =>
    match log_error env t ("Error processing file " ++ src ++ ": " ++ e) with
    | Except.ok t2 => Except.ok (PyVal.str "Failed to process XLSX file.", t2)
    | Except.error e2 => Except.error e2

/-- `GCPXLSXParser.parse` (main.py lines 87-153). -/
def parse (env : Env) (src : String) : Except String (PyVal × Trace) :=
  handleParseError env src (parseInner env src)

/-- The outcome `parse` would produce if it went straight to local
conversion of the decoded workbook (the non-complex / remote-fallback
path). -/
def localOutcome (env : Env) (src : String) (wb : Workbook) : Except String (PyVal × Trace) :=
  handleParseError env src (afterComplex env wb)

/-- The control state under which `parse` reaches workbook `wb`: source
exists, bytes non-empty, decode succeeded. -/
def reachesWorkbook (env : Env) (src : String) (wb : Workbook) : Prop :=
  env.sourceExists = Except.ok true ∧
  (∃ bs, env.download = Except.ok bs ∧ bs ≠ []) ∧
  decodeWorkbook env src = Except.ok wb

/-- The remote call ran and yielded an error descriptor (a payload containing
the key `"error"`), so `parse` falls back to local processing. -/
def fallsBackToLocal (env : Env) : Prop :=
  ∃ r, forward_to_cloud_run env = Except.ok r ∧ pyContains r "error" = Except.ok true

/-- `parse` reaches the local sheet loop on workbook `wb`: the download chain
succeeded and either no complexity was detected or the remote call fell
back. -/
def reachesLocal (env : Env) (src : String) (wb : Workbook) : Prop :=
  reachesWorkbook env src wb ∧
    (detect_complexity wb = false ∨ fallsBackToLocal env)

/-- A non-complex workbook, or one whose remote call produced an error
descriptor, proceeds to the local loop. -/
lemma complexStage_eq (env : Env) (wb : Workbook)
    (hl : detect_complexity wb = false ∨ fallsBackToLocal env) :
    complexStage env wb = afterComplex env wb := by
  unfold complexStage
  rcases hl with hd | ⟨r, hf, hc⟩
  · simp [hd]
  · cases hd : detect_complexity wb
    · simp
    · simp [hf, hc]

/-- When the download chain succeeds, `parseInner` is the complexity stage on
the decoded workbook. -/
lemma parseInner_eq (env : Env) (src : String) (wb : Workbook)
    (h : reachesWorkbook env src wb) :
    parseInner env src = complexStage env wb := by
  obtain ⟨hex, ⟨bs, hdl, hbs⟩, hdec⟩ := h
  have hbs2 : bs.isEmpty = false := by cases bs <;> simp_all
  unfold parseInner
  simp [hex, hdl, hdec, hbs2]

/-- When `parse` reaches the local loop, its outcome is exactly the local
outcome of the decoded workbook. -/
lemma parse_eq_localOutcome (env : Env) (src : String) (wb : Workbook)
    (h : reachesLocal env src wb) :
    parse env src = localOutcome env src wb := by
  obtain ⟨hwb, hl⟩ := h
  unfold parse localOutcome
  rw [parseInner_eq env src wb hwb, complexStage_eq env wb hl]

/-- Shape analysis of the sheet-loop tail: success with the encoded result
uploaded, sheet failure logged and converted to the failure string, or a
raise carrying an empty trace. -/
lemma afterComplex_cases (env : Env) (wb : Workbook) :
    (∃ data, localConvert env wb = Except.ok data ∧ data ≠ [] ∧
      afterComplex env wb = Except.ok (PyVal.str "JSON file successfully created in GCS.",
        { destWritten := some (encodeResult data), errorLog := [] })) ∨
    (∃ m, env.logUploadExc = none ∧
      afterComplex env wb = Except.ok (PyVal.str "Failed to process XLSX file.",
        { destWritten := none, errorLog := [m] })) ∨
    (∃ e, afterComplex env wb = Except.error (e, ({} : Trace))) := by
  unfold afterComplex
  cases hlc : localConvert env wb with
  | error m =>
    unfold log_error
    cases hl : env.logUploadExc with
    | some e => right; right; exact ⟨e, rfl⟩
    | none => right; left; exact ⟨m, rfl, rfl⟩
  | ok data =>
    cases hd : data.isEmpty with
    | true =>
      right; right
      exact ⟨"No valid data found in the Excel file.", by simp [hd]⟩
    | false =>
      cases hu : env.uploadExc with
      | some e => right; right; exact ⟨e, by simp [hd, hu]⟩
      | none =>
        left
        exact ⟨data, rfl, by simpa using hd, by simp [hd, hu]⟩

/-- Shape analysis of the complexity stage. -/
lemma complexStage_cases (env : Env) (wb : Workbook) :
    (∃ data, complexStage env wb =
        Except.ok (PyVal.str "JSON file successfully created in GCS.",
          { destWritten := some (encodeResult data), errorLog := [] })) ∨
    (∃ m, env.logUploadExc = none ∧
      complexStage env wb = Except.ok (PyVal.str "Failed to process XLSX file.",
        { destWritten := none, errorLog := [m] })) ∨
    (∃ j, complexStage env wb = Except.ok (PyVal.json j, { destWritten := none, errorLog := [] })) ∨
    (∃ e, complexStage env wb = Except.error (e, ({} : Trace))) := by
  have hac := afterComplex_cases env wb
  unfold complexStage
  cases hdc : detect_complexity wb with
  | false =>
    rcases hac with ⟨d, _, _, h⟩ | ⟨m, hl, h⟩ | ⟨e, h⟩
    · left; exact ⟨d, by simpa using h⟩
    · right; left; exact ⟨m, hl, by simpa using h⟩
    · right; right; right; exact ⟨e, by simpa using h⟩
  | true =>
    cases hf : forward_to_cloud_run env with
    | error e => right; right; right; exact ⟨e, by simp [hf]⟩
    | ok r =>
      cases hc : pyContains r "error" with
      | error e => right; right; right; exact ⟨e, by simp [hf, hc]⟩
      | ok b2 =>
        cases b2 with
        | false => right; right; left; exact ⟨r, by simp [hf, hc]⟩
        | true =>
          rcases hac with ⟨d, _, _, h⟩ | ⟨m, hl, h⟩ | ⟨e, h⟩
          · left; exact ⟨d, by simp [hf, hc, h]⟩
          · right; left; exact ⟨m, hl, by simp [hf, hc, h]⟩
          · right; right; right; exact ⟨e, by simp [hf, hc, h]⟩

/-- Shape analysis of the whole `try` body. -/
lemma parseInner_cases (env : Env) (src : String) :
    (∃ data, parseInner env src =
        Except.ok (PyVal.str "JSON file successfully created in GCS.",
          { destWritten := some (encodeResult data), errorLog := [] })) ∨
    (∃ m, env.logUploadExc = none ∧
      parseInner env src = Except.ok (PyVal.str "Failed to process XLSX file.",
        { destWritten := none, errorLog := [m] })) ∨
    (∃ j, parseInner env src = Except.ok (PyVal.json j, { destWritten := none, errorLog := [] })) ∨
    (∃ e, parseInner env src = Except.error (e, ({} : Trace))) := by
  unfold parseInner
  cases hex : env.sourceExists with
  | error e => right; right; right; exact ⟨e, rfl⟩
  | ok b =>
    cases b with
    | false =>
      right; right; right
      exact ⟨"File " ++ src ++ " does not exist in bucket.", rfl⟩
    | true =>
      cases hdl : env.download with
      | error e => right; right; right; exact ⟨e, rfl⟩
      | ok bs =>
        cases hbs : bs.isEmpty with
        | true =>
          right; right; right
          exact ⟨"Downloaded file is empty.", by simp [hbs]⟩
        | false =>
          cases hdw : decodeWorkbook env src with
          | error e => right; right; right; exact ⟨e, by simp [hbs]⟩
          | ok wb =>
            rcases complexStage_cases env wb with ⟨d, h⟩ | ⟨m, hl, h⟩ | ⟨j, h⟩ | ⟨e, h⟩
            · left; exact ⟨d, by simp [hbs, h]⟩
            · right; left; exact ⟨m, hl, by simp [hbs, h]⟩
            · right; right; left; exact ⟨j, by simp [hbs, h]⟩
            · right; right; right; exact ⟨e, by simp [hbs, h]⟩

/-- Shape analysis of `parse`: success string with the encoded result
uploaded; failure string with exactly one line appended to the error log and
nothing uploaded; the remote payload passed through with no writes; or a
propagated exception, which happens only when the error-log write itself
fails. -/
lemma parse_cases (env : Env) (src : String) :
    (∃ data, parse env src =
        Except.ok (PyVal.str "JSON file successfully created in GCS.",
          { destWritten := some (encodeResult data), errorLog := [] })) ∨
    (∃ m, parse env src = Except.ok (PyVal.str "Failed to process XLSX file.",
        { destWritten := none, errorLog := [m] })) ∨
    (∃ j, parse env src = Except.ok (PyVal.json j, { destWritten := none, errorLog := [] })) ∨
    (∃ e, parse env src = Except.error e ∧ env.logUploadExc = some e) := by
  unfold parse handleParseError
  rcases parseInner_cases env src with ⟨d, h⟩ | ⟨m, _, h⟩ | ⟨j, h⟩ | ⟨e, h⟩ <;> rw [h]
  · left; exact ⟨d, rfl⟩
  · right; left; exact ⟨m, rfl⟩
  · right; right; left; exact ⟨j, rfl⟩
  · unfold log_error
    cases hl : env.logUploadExc with
    | none => right; left; exact ⟨_, rfl⟩
    | some e2 => right; right; right; exact ⟨e2, rfl, rfl⟩

/-- Fueled scanner behind `pyReplace`: at each position, if the (non-empty)
pattern matches, emit the replacement and skip the matched characters;
otherwise copy one character.  One unit of fuel per step; since every step
consumes at least one character, fuel `s.length` is exact. -/
def pyReplaceFuel (old new : List Char) : Nat → List Char → List Char
  | 0, s => s
  | _ + 1, [] => []
  | fuel + 1, c :: t =>
    if old ≠ [] ∧ old.isPrefixOf (c :: t) then
      new ++ pyReplaceFuel old new fuel ((c :: t).drop old.length)
    else
      c :: pyReplaceFuel old new fuel t

/-- Python `s.replace(old, new)` for a non-empty `old`: replace every
occurrence, scanning left to right, without rescanning replacements. -/
def pyReplace (old new s : List Char) : List Char :=
  pyReplaceFuel old new s.length s

/-- The acceptance test of the event trigger (main.py line 162):
`source_blob.endswith(".xlsx") or source_blob.endswith(".xls")`. -/
def acceptedKey (name : String) : Bool :=
  pyEndsWith name ".xlsx" || pyEndsWith name ".xls"

/-- Destination blob key used by both triggers (main.py lines 165 and 187):
`source_blob.replace(".xlsx", ".json").replace(".xls", ".json")`. -/
def destinationKey (name : List Char) : List Char :=
  pyReplace ".xls".toList ".json".toList (pyReplace ".xlsx".toList ".json".toList name)

/-- Error-log blob key used by the event trigger (main.py line 165):
`source_blob.replace(".xlsx", "_error.log")` — no `.xls` replacement. -/
def eventErrorKey (name : List Char) : List Char :=
  pyReplace ".xlsx".toList "_error.log".toList name

/-- Error-log blob key used by the HTTP trigger (main.py line 188):
`source_blob.replace(".xlsx", "_error.log").replace(".xls", "_error.log")`. -/
def httpErrorKey (name : List Char) : List Char :=
  pyReplace ".xls".toList "_error.log".toList (pyReplace ".xlsx".toList "_error.log".toList name)

/-- Python falsiness of a JSON value (`not request_json`,
`not bucket_name`). -/
def pyFalsy : Json → Bool
  | Json.null => true
  | Json.nan => false
  | Json.str s => s == ""
  | Json.arr xs => xs.isEmpty
  | Json.obj kvs => kvs.isEmpty

/-- Python falsiness of `dict.get(...)`: absent keys give `None` (falsy). -/
def optFalsy : Option Json → Bool
  | none => true
  | some v => pyFalsy v

/-- The value placed under `"message"` by `jsonify` for `parse`'s return
value. -/
def pyValToJson : PyVal → Json
  | PyVal.str s => Json.str s
  | PyVal.json j => j

/-- `convert_xlsx_to_json_http` (main.py lines 171-196).  `body` is the
result of `request.get_json(silent=True)` (`none` on a malformed body); the
returned pair is the HTTP status with the JSON response.  A truthy non-object
body raises at `request_json.get` and lands in the 500 handler, as does an
exception escaping `parser.parse()`. -/
def convert_xlsx_to_json_http (env : Env) (body : Option Json) : Nat × Json :=
  match body with
  | none => (400, Json.obj [("error", Json.str "Invalid JSON payload")])
  | some j =>
    if pyFalsy j then (400, Json.obj [("error", Json.str "Invalid JSON payload")])
    else
      match j with
      | Json.obj kvs =>
        if optFalsy (kvs.lookup "bucket") || optFalsy (kvs.lookup "name") then
          (400, Json.obj [("error", Json.str "Missing required parameters")])
        else
          match parse env (pyStrJson ((kvs.lookup "name").getD Json.null)) with
          | Except.ok (v, _) => (200, Json.obj [("message", pyValToJson v)])
          | Except.error e => (500, Json.obj [("error", Json.str e)])
      | _ =>
        (500, Json.obj [("error", Json.str "AttributeError: request payload has no attribute get")])

/-! Concrete environments used to instantiate the theorems. -/

/-- A benign environment: source exists, download non-empty, empty workbook,
all writes succeed. -/
def envBase : Env :=
  { sourceExists := Except.ok true
    download := Except.ok [1]
    decodeXls := Except.error "no xls engine"
    decodeXlsx := Except.ok []
    post := Except.ok (200, Json.null)
    sheetExc := fun _ => none
    uploadExc := none
    logUploadExc := none }

/-- The one-sheet workbook of the round-trip property: columns Title/Date
with one data row. -/
def wb9 : Workbook :=
  [("Sheet1", [[Cell.str "Title", Cell.str "Date"], [Cell.str "Doc1", Cell.str "2025-02-10"]])]

/-- Environment decoding `wb9`. -/
def env9 : Env := { envBase with decodeXlsx := Except.ok wb9 }

/-- A workbook whose only sheet has two all-null rows. -/
def wb6 : Workbook := [("Sheet1", [[Cell.na, Cell.na], [Cell.na, Cell.na]])]

/-- Environment decoding `wb6`; the remote call (triggered by the missing
cells) yields an error descriptor, so processing falls back locally. -/
def env6 : Env := { envBase with
  decodeXlsx := Except.ok wb6
  post := Except.ok (500, Json.obj [("error", Json.str "boom")]) }

/-- A complexity-triggering workbook: a clean sheet named Report. -/
def wbR : Workbook := [("Report", [[Cell.str "v"]])]

/-- Environment decoding `wbR` whose remote call fails with HTTP 500. -/
def env4 : Env := { envBase with
  decodeXlsx := Except.ok wbR
  post := Except.ok (500, Json.obj [("error", Json.str "boom")]) }

/-- Environment decoding `wbR` whose remote call succeeds with a payload. -/
def envC1 : Env := { envBase with
  decodeXlsx := Except.ok wbR
  post := Except.ok (200, Json.obj [("status", Json.str "ok")]) }

/-- Environment with a single sheet whose `header=0` parse raises. -/
def envS : Env := { envBase with
  decodeXlsx := Except.ok [("S", [[Cell.str "h"], [Cell.str "a"]])]
  sheetExc := fun n => if n = "S" then some "boom" else none }

/-- A workbook whose sheet keeps missing cells after the drops: columns A and
B are each null in a different row, so neither a column nor a row is
all-null. -/
def wb5 : Workbook :=
  [("S", [[Cell.str "A", Cell.str "B"], [Cell.str "1", Cell.na], [Cell.na, Cell.str "2"]])]

/-- Environment decoding `wb5`; its missing cells flag it complex, the remote
call yields an error descriptor, and processing falls back locally. -/
def env5 : Env := { envBase with
  decodeXlsx := Except.ok wb5
  post := Except.ok (500, Json.obj [("error", Json.str "boom")]) }

/-! Claim theorems. -/

/-- C1 (counterexample): the claim says every invocation returns one of the
two status strings, including on the Cloud Run success path, with the JSON
written to the destination on success.  In the environment `envC1` the
workbook is complex and the remote call returns a payload without an
`"error"` key; `parse` then returns that payload object — not a string — and
writes nothing to the destination blob. -/
theorem c1_remote_payload_counterexample :
    parse envC1 "t.xlsx" = Except.ok (PyVal.json (Json.obj [("status", Json.str "ok")]),
      { destWritten := none, errorLog := [] }) ∧
    PyVal.json (Json.obj [("status", Json.str "ok")]) ≠
      PyVal.str "JSON file successfully created in GCS." ∧
    PyVal.json (Json.obj [("status", Json.str "ok")]) ≠
      PyVal.str "Failed to process XLSX file." :=
  ⟨rfl, by simp, by simp⟩

/-- C1 (amended): every invocation of `parse` ends in one of: the success
string with the encoded ConversionResult written to the destination and
nothing logged; the failure string with exactly one message appended to the
error log and nothing written; the remote payload returned verbatim with
nothing written and nothing logged; or, only when the error-log write itself
fails, the propagated exception. -/
theorem c1_parse_outcomes (env : Env) (src : String) :
    (∃ data, parse env src =
        Except.ok (PyVal.str "JSON file successfully created in GCS.",
          { destWritten := some (encodeResult data), errorLog := [] })) ∨
    (∃ m, parse env src = Except.ok (PyVal.str "Failed to process XLSX file.",
        { destWritten := none, errorLog := [m] })) ∨
    (∃ j, parse env src = Except.ok (PyVal.json j, { destWritten := none, errorLog := [] })) ∨
    (∃ e, parse env src = Except.error e ∧ env.logUploadExc = some e) :=
  parse_cases env src

/-- C3: `detect_complexity` returns true exactly when some sheet's raw grid
has a missing cell or its lower-cased name is a structured-report name; in
particular a sheet named Report (any case) always flags the workbook. -/
theorem c3_detect_complexity_iff (wb : Workbook) :
    (detect_complexity wb = true ↔
      ∃ p ∈ wb, 0 < countNa p.2 ∨ pyLower p.1 ∈ complexSheetNames) ∧
    (∀ sheetName g, (sheetName, g) ∈ wb → pyLower sheetName = "report" →
      detect_complexity wb = true) := by
  constructor
  · induction wb with
    | nil => simp [detect_complexity]
    | cons hd tl ih =>
      obtain ⟨n, g⟩ := hd
      unfold detect_complexity
      by_cases h1 : 0 < countNa g
      · simp [h1]
      · by_cases h2 : pyLower n ∈ complexSheetNames
        · simp [h1, h2]
        · simp only [h1, h2, if_false, ih]
          constructor
          · rintro ⟨p, hp, hor⟩
            exact ⟨p, List.mem_cons_of_mem _ hp, hor⟩
          · rintro ⟨p, hp, hor⟩
            rcases List.mem_cons.mp hp with rfl | hp2
            · exact absurd hor (by simp [h1, h2])
            · exact ⟨p, hp2, hor⟩
  · intro sheetName g hmem hrep
    induction wb with
    | nil => cases hmem
    | cons hd tl ih =>
      obtain ⟨n, g2⟩ := hd
      unfold detect_complexity
      rcases List.mem_cons.mp hmem with heq | hmem2
      · obtain ⟨rfl, rfl⟩ := Prod.mk.injEq .. ▸ And.intro (congrArg Prod.fst heq) (congrArg Prod.snd heq)
        by_cases h1 : 0 < countNa g
        · simp [h1]
        · simp [h1, hrep, complexSheetNames]
      · by_cases h1 : 0 < countNa g2
        · simp [h1]
        · by_cases h2 : pyLower n ∈ complexSheetNames
          · simp [h1, h2]
          · simpa [h1, h2] using ih hmem2

/-- C3 witness: a clean sheet named Report flags the workbook. -/
theorem c3_witness : detect_complexity [("Report", [[Cell.str "x"]])] = true :=
  (c3_detect_complexity_iff [("Report", [[Cell.str "x"]])]).2 "Report" [[Cell.str "x"]]
    (by simp) (by decide)

/-- C9: the round-trip table with columns Title/Date and data row
(Doc1, 2025-02-10) converts locally into a destination JSON whose Sheet1
holds exactly the record mapping Title to Doc1 and Date to 2025-02-10. -/
theorem c9_round_trip :
    parse env9 "test.xlsx" =
      Except.ok (PyVal.str "JSON file successfully created in GCS.",
        { destWritten := some (Json.obj [("Sheet1",
            Json.arr [Json.obj [("Title", Json.str "Doc1"), ("Date", Json.str "2025-02-10")]])])
          errorLog := [] }) := rfl

/-- C10: whenever the error-log writes succeed, `parse` returns a value and
never propagates an exception; consequently the HTTP trigger's 500 branch is
not reachable through a `parse` failure. -/
theorem c10_no_exception (env : Env) (h : env.logUploadExc = none) :
    (∀ src, (parse env src).isOk = true) ∧
    (∀ kvs v s, (kvs.lookup "bucket") = some v → pyFalsy v = false →
      (kvs.lookup "name") = some (Json.str s) → pyFalsy (Json.str s) = false →
      (convert_xlsx_to_json_http env (some (Json.obj kvs))).1 ≠ 500) := by
  have hok : ∀ src, (parse env src).isOk = true := by
    intro src
    rcases parse_cases env src with ⟨d, hp⟩ | ⟨m, hp⟩ | ⟨j, hp⟩ | ⟨e, hp, hl⟩
    · simp [hp, Except.isOk, Except.toBool]
    · simp [hp, Except.isOk, Except.toBool]
    · simp [hp, Except.isOk, Except.toBool]
    · rw [h] at hl; cases hl
  refine ⟨hok, ?_⟩
  intro kvs v s hb hbv hn hnv
  have hkvs : pyFalsy (Json.obj kvs) = false := by
    cases kvs with
    | nil => cases hb
    | cons a l => simp [pyFalsy]
  unfold convert_xlsx_to_json_http
  simp only [hkvs, hb, hn, hbv, hnv, Bool.false_eq_true, if_false, optFalsy, Bool.or_self]
  have := hok (pyStrJson ((some (Json.str s)).getD Json.null))
  cases hp : parse env (pyStrJson ((some (Json.str s)).getD Json.null)) with
  | ok r => obtain ⟨rv, rt⟩ := r; simp
  | error e => rw [hp] at this; simp [Except.isOk, Except.toBool] at this

/-- C10 witness: with successful log writes, a concrete invocation returns a
value. -/
theorem c10_witness : (parse envBase "a.xlsx").isOk = true :=
  (c10_no_exception envBase rfl).1 "a.xlsx"

/-- C4: once a complex workbook is decoded, a remote error descriptor makes
`parse` produce exactly the outcome local processing produces, and a remote
payload without an error key is returned as the final result. -/
theorem c4_remote_error_falls_back (env : Env) (src : String) (wb : Workbook)
    (h : reachesWorkbook env src wb) (hc : detect_complexity wb = true) :
    (∀ r, forward_to_cloud_run env = Except.ok r → pyContains r "error" = Except.ok true →
      parse env src = localOutcome env src wb) ∧
    (∀ r, forward_to_cloud_run env = Except.ok r → pyContains r "error" = Except.ok false →
      parse env src = Except.ok (PyVal.json r, { destWritten := none, errorLog := [] })) := by
  constructor
  · intro r hf hcr
    exact parse_eq_localOutcome env src wb ⟨h, Or.inr ⟨r, hf, hcr⟩⟩
  · intro r hf hcr
    unfold parse
    rw [parseInner_eq env src wb h]
    unfold complexStage
    simp [hc, hf, hcr, handleParseError]

/-- C4 witness: in `env4` the remote call returns HTTP 500, the client turns
it into an error descriptor, and `parse` coincides with the local outcome. -/
theorem c4_witness : parse env4 "t.xlsx" = localOutcome env4 "t.xlsx" wbR :=
  (c4_remote_error_falls_back env4 "t.xlsx" wbR ⟨rfl, ⟨[1], rfl, by simp⟩, rfl⟩ rfl).1
    (Json.obj [("error", Json.str "Cloud Run failed: boom")]) rfl rfl

/-- C5: evaluating the pipeline at the failing input `wb5`: the two records
each keep a missing cell, and the uploaded payload renders those cells as
the bare `NaN` token — `json.dumps` serializes a float NaN natively and
never consults the `default` hook for it — where the claim (and the
`pd.isna` branch of `json_serializer` itself) requires JSON null.
Timestamps and strings render as the claim says, but the missing-value
clause is violated by the program. -/
theorem c5_nan_token_bug :
    parse env5 "t.xlsx" = Except.ok (PyVal.str "JSON file successfully created in GCS.",
      { destWritten := some (Json.obj [("S", Json.arr
          [Json.obj [("A", Json.str "1"), ("B", Json.nan)],
           Json.obj [("A", Json.nan), ("B", Json.str "2")]])])
        errorLog := [] }) ∧
    Json.nan ≠ Json.null ∧
    dumpsScalar Cell.na = Json.nan :=
  ⟨rfl, by simp, rfl⟩

/-- C6: in a locally processed workbook, a failing sheet aborts the whole
operation with the message logged, the failure string returned and nothing
uploaded; and a ConversionResult with zero sheets fails with the NoData
message, likewise uploading nothing. -/
theorem c6_sheet_failure_and_nodata (env : Env) (src : String) (wb : Workbook)
    (h : reachesLocal env src wb) (hlog : env.logUploadExc = none) :
    (∀ m, localConvert env wb = Except.error m →
      parse env src = Except.ok (PyVal.str "Failed to process XLSX file.",
        { destWritten := none, errorLog := [m] })) ∧
    (localConvert env wb = Except.ok [] →
      parse env src = Except.ok (PyVal.str "Failed to process XLSX file.",
        { destWritten := none,
          errorLog := ["Error processing file " ++ src ++
            ": No valid data found in the Excel file."] })) := by
  constructor
  · intro m hm
    rw [parse_eq_localOutcome env src wb h]
    unfold localOutcome handleParseError afterComplex log_error
    simp [hm, hlog]
  · intro hok
    rw [parse_eq_localOutcome env src wb h]
    unfold localOutcome handleParseError afterComplex log_error
    simp only [hok, hlog, List.isEmpty_nil, if_true, List.nil_append]
    rw [String.append_assoc,
      show (": " ++ "No valid data found in the Excel file." : String) =
        ": No valid data found in the Excel file." from rfl]

/-- C6 witness: the all-null-rows workbook (after remote fallback) fails with
NoData and writes nothing; a raising sheet aborts with its message logged. -/
theorem c6_witness :
    parse env6 "t.xlsx" = Except.ok (PyVal.str "Failed to process XLSX file.",
      { destWritten := none,
        errorLog := ["Error processing file t.xlsx: No valid data found in the Excel file."] }) ∧
    parse envS "t.xlsx" = Except.ok (PyVal.str "Failed to process XLSX file.",
      { destWritten := none,
        errorLog := ["Error processing sheet " ++ sq ++ "S" ++ sq ++ ": boom"] }) := by
  constructor
  · exact (c6_sheet_failure_and_nodata env6 "t.xlsx" wb6
      ⟨⟨rfl, ⟨[1], rfl, by simp⟩, rfl⟩,
        Or.inr ⟨Json.obj [("error", Json.str "Cloud Run failed: boom")], rfl, rfl⟩⟩ rfl).2 rfl
  · exact (c6_sheet_failure_and_nodata envS "t.xlsx" [("S", [[Cell.str "h"], [Cell.str "a"]])]
      ⟨⟨rfl, ⟨[1], rfl, by simp⟩, rfl⟩, Or.inl rfl⟩ rfl).1 _ rfl

/-- Records of a processed sheet are, in order, a sublist of the records of
the column-dropped frame: dropping all-null rows preserves the original row
order. -/
lemma toRecords_processSheet_sublist (g : Grid) :
    (toRecords (processSheet g)).Sublist (toRecords (dropNaCols (frameOf g))) := by
  unfold processSheet dropNaRows toRecords
  exact List.Sublist.map _ (List.filter_sublist _)

/-- A column whose data values are all missing is dropped, so its (distinct)
label keys no record of the processed sheet. -/
lemma allNullCol_dropped (g : Grid) (j : Nat)
    (hj : j < (frameOf g).cols.length)
    (hall : ∀ r ∈ (frameOf g).rows, r.getD j Cell.na = Cell.na)
    (hnd : ((frameOf g).cols.map colName).Nodup) :
    ∀ rec ∈ toRecords (processSheet g), ∀ kv ∈ rec,
      kv.1 ≠ colName ((frameOf g).cols.getD j Cell.na) := by
  intro rec hrec kv hkv
  obtain ⟨k, v⟩ := kv
  unfold processSheet dropNaRows toRecords at hrec
  simp only [List.mem_map] at hrec
  obtain ⟨r, hr, rfl⟩ := hrec
  have h1 : k ∈ (dropNaCols (frameOf g)).cols.map colName := (List.of_mem_zip hkv).1
  simp only [dropNaCols, List.map_map, List.mem_map, Function.comp] at h1
  obtain ⟨j2, hj2, hk⟩ := h1
  unfold keptCols at hj2
  have hj2m := List.mem_filter.mp hj2
  have hj2lt : j2 < (frameOf g).cols.length := List.mem_range.mp hj2m.1
  have hj2ne : j2 ≠ j := by
    intro heq
    subst heq
    obtain ⟨r2, hr2, hcell⟩ := List.any_eq_true.mp hj2m.2
    exact absurd (hall r2 hr2) (bne_iff_ne.mp hcell)
  intro hkeq
  have hkeq2 : k = colName ((frameOf g).cols.getD j Cell.na) := hkeq
  apply hj2ne
  have hjb : j < ((frameOf g).cols.map colName).length := by simpa using hj
  have hj2b : j2 < ((frameOf g).cols.map colName).length := by simpa using hj2lt
  have e1 : colName ((frameOf g).cols.getD j2 Cell.na) =
      ((frameOf g).cols.map colName)[j2] := by
    rw [List.getElem_map, List.getD_eq_getElem _ _ hj2lt]
  have e2 : colName ((frameOf g).cols.getD j Cell.na) =
      ((frameOf g).cols.map colName)[j] := by
    rw [List.getElem_map, List.getD_eq_getElem _ _ hj]
  have e3 : ((frameOf g).cols.map colName)[j2] =
      ((frameOf g).cols.map colName)[j] := by
    rw [← e1, ← e2, hk, hkeq2]
  exact (List.Nodup.getElem_inj_iff hnd).mp e3

/-- Structure of a fully successful local conversion: the kept keys are the
non-empty processed sheets in workbook order, and each kept sheet contributes
its processed records. -/
lemma localConvert_ok (env : Env) (hexc : ∀ n, env.sheetExc n = none) :
    ∀ wb : Workbook, ∃ data, localConvert env wb = Except.ok data ∧
      data.map Prod.fst = (wb.filter fun p => !dfEmpty (processSheet p.2)).map Prod.fst ∧
      ∀ p ∈ wb, dfEmpty (processSheet p.2) = false →
        (p.1, toRecords (processSheet p.2)) ∈ data := by
  intro wb
  induction wb with
  | nil => exact ⟨[], rfl, rfl, by simp⟩
  | cons hd tl ih =>
    obtain ⟨n, g⟩ := hd
    obtain ⟨tail, htail, hmap, hmem⟩ := ih
    unfold localConvert
    rw [hexc n, htail]
    cases hde : dfEmpty (processSheet g) with
    | true =>
      refine ⟨tail, by simp [hde], ?_, ?_⟩
      · simpa [hde] using hmap
      · intro p hp hne
        rcases List.mem_cons.mp hp with rfl | hp2
        · rw [hne] at hde; cases hde
        · exact hmem p hp2 hne
    | false =>
      refine ⟨(n, toRecords (processSheet g)) :: tail, by simp [hde], ?_, ?_⟩
      · simp [hde, hmap]
      · intro p hp hne
        rcases List.mem_cons.mp hp with rfl | hp2
        · exact List.mem_cons_self _ _
        · exact List.mem_cons_of_mem _ (hmem p hp2 hne)

/-- C7: for a workbook whose sheets all parse, the ConversionResult keys are
exactly the names of the sheets non-empty after dropping all-null columns and
rows, in workbook order and unique (given unique sheet names); each kept
sheet contributes its processed records, whose order is a sublist of the
original row order; and an all-null column's label keys no record. -/
theorem c7_result_invariants (env : Env) (wb : Workbook)
    (hexc : ∀ n, env.sheetExc n = none) (hnd : (wb.map Prod.fst).Nodup) :
    (Except.map (fun data => data.map Prod.fst) (localConvert env wb) =
      Except.ok ((wb.filter fun p => !dfEmpty (processSheet p.2)).map Prod.fst)) ∧
    (∀ data, localConvert env wb = Except.ok data → (data.map Prod.fst).Nodup) ∧
    (∀ data, localConvert env wb = Except.ok data →
      ∀ p ∈ wb, dfEmpty (processSheet p.2) = false →
        (p.1, toRecords (processSheet p.2)) ∈ data) ∧
    (∀ g : Grid, (toRecords (processSheet g)).Sublist (toRecords (dropNaCols (frameOf g)))) ∧
    (∀ (g : Grid) (j : Nat), j < (frameOf g).cols.length →
      (∀ r ∈ (frameOf g).rows, r.getD j Cell.na = Cell.na) →
      ((frameOf g).cols.map colName).Nodup →
      ∀ rec ∈ toRecords (processSheet g), ∀ kv ∈ rec,
        kv.1 ≠ colName ((frameOf g).cols.getD j Cell.na)) := by
  obtain ⟨data, hd, hmap, hmem⟩ := localConvert_ok env hexc wb
  refine ⟨by rw [hd, Except.map, hmap], ?_, ?_, toRecords_processSheet_sublist,
    allNullCol_dropped⟩
  · intro data2 hd2
    rw [hd] at hd2
    injection hd2 with he
    subst he
    rw [hmap]
    exact List.Nodup.sublist (List.Sublist.map _ (List.filter_sublist _)) hnd
  · intro data2 hd2
    rw [hd] at hd2
    injection hd2 with he
    subst he
    exact hmem

/-- A three-row sheet whose second column is null except in the header, and
whose third row is all null. -/
def wb7 : Workbook :=
  [("A", [[Cell.str "h1", Cell.str "h2"], [Cell.str "x", Cell.na], [Cell.na, Cell.na]])]

/-- C7 witness: the kept keys of a concrete conversion. -/
theorem c7_witness :
    Except.map (fun data => data.map Prod.fst) (localConvert envBase wb7) =
      Except.ok ["A"] :=
  (c7_result_invariants envBase wb7 (fun _ => rfl) (by decide)).1

/-- One scanning step of the fueled replacer. -/
lemma pyReplaceFuel_succ (old new : List Char) (f : Nat) (c : Char) (t : List Char) :
    pyReplaceFuel old new (f + 1) (c :: t) =
      if old ≠ [] ∧ old.isPrefixOf (c :: t) then
        new ++ pyReplaceFuel old new f ((c :: t).drop old.length)
      else c :: pyReplaceFuel old new f t := rfl

/-- Fuel above the string length is irrelevant: any sufficient fuel computes
`pyReplace`. -/
lemma pyReplaceFuel_norm (old new : List Char) :
    ∀ (f : Nat) (s : List Char), s.length ≤ f →
      pyReplaceFuel old new f s = pyReplace old new s := by
  intro f
  induction f using Nat.strong_induction_on with
  | _ f ih =>
    intro s hs
    match f, s with
    | f, [] =>
      cases f <;> rfl
    | 0, c :: t =>
      simp at hs
    | f + 1, c :: t =>
      have hst : t.length + 1 ≤ f + 1 := by simpa using hs
      unfold pyReplace
      rw [List.length_cons, pyReplaceFuel_succ, pyReplaceFuel_succ]
      by_cases hcond : old ≠ [] ∧ old.isPrefixOf (c :: t)
      · rw [if_pos hcond, if_pos hcond]
        congr 1
        have hol : 1 ≤ old.length := by
          cases hoo : old with
          | nil => exact absurd hoo hcond.1
          | cons a b => simp
        have hd1 : ((c :: t).drop old.length).length ≤ f := by
          rw [List.length_drop, List.length_cons]
          omega
        have hd2 : ((c :: t).drop old.length).length ≤ t.length := by
          rw [List.length_drop, List.length_cons]
          omega
        rw [ih f (by omega) _ hd1, ih t.length (by omega) _ hd2]
      · rw [if_neg hcond, if_neg hcond]
        congr 1
        rw [ih f (by omega) _ (by omega), ih t.length (by omega) _ (le_refl t.length)]

/-- A position where the pattern does not match copies one character. -/
lemma pyReplace_cons_of_not_prefix (old new : List Char) (c : Char) (t : List Char)
    (h : old.isPrefixOf (c :: t) = false) :
    pyReplace old new (c :: t) = c :: pyReplace old new t := by
  unfold pyReplace
  rw [List.length_cons, pyReplaceFuel_succ, if_neg (by simp [h])]

/-- No suffix of `p` is prefix-comparable with `sub`: scanning `p ++ t` for
any pattern extending `sub` can match only inside `t`. -/
def scanSafe (sub p : List Char) : Prop :=
  ∀ i, i < p.length →
    sub.isPrefixOf (p.drop i) = false ∧ (p.drop i).isPrefixOf sub = false

instance (sub p : List Char) : Decidable (scanSafe sub p) := by
  unfold scanSafe
  exact Nat.decidableBallLT _ _

/-- `scanSafe` passes to the tail. -/
lemma scanSafe_cons (sub : List Char) (c : Char) (p : List Char)
    (h : scanSafe sub (c :: p)) : scanSafe sub p := by
  intro i hi
  have h2 := h (i + 1) (by simpa using hi)
  simpa using h2

/-- Replacement of a pattern extending `sub` passes over a `scanSafe`
prefix untouched. -/
lemma pyReplace_append_of_scanSafe (old new sub : List Char)
    (hsub : sub <+: old) (p t : List Char) (hp : scanSafe sub p) :
    pyReplace old new (p ++ t) = p ++ pyReplace old new t := by
  induction p with
  | nil => simp
  | cons c p' ih =>
    have h01 : sub.isPrefixOf (c :: p') = false := by
      simpa using (hp 0 (by simp)).1
    have h02 : (c :: p').isPrefixOf sub = false := by
      simpa using (hp 0 (by simp)).2
    have hnp : old.isPrefixOf ((c :: p') ++ t) = false := by
      cases hb : old.isPrefixOf ((c :: p') ++ t) with
      | false => rfl
      | true =>
        have hpre : old <+: (c :: p') ++ t := List.isPrefixOf_iff_prefix.mp hb
        have hsubpre : sub <+: (c :: p') ++ t := hsub.trans hpre
        have hcp : (c :: p') <+: (c :: p') ++ t := List.prefix_append _ _
        rcases List.prefix_or_prefix_of_prefix hsubpre hcp with h1 | h2
        · rw [List.isPrefixOf_iff_prefix.mpr h1] at h01
          cases h01
        · rw [List.isPrefixOf_iff_prefix.mpr h2] at h02
          cases h02
    rw [List.cons_append, pyReplace_cons_of_not_prefix old new c (p' ++ t) (by simpa using hnp),
      ih (scanSafe_cons sub c p' hp), List.cons_append]

/-- C2 (counterexample): the claim says the error-log key replaces the
`.xls`/`.xlsx` suffix with `_error.log` under both triggers and that the
destination key is the suffix-replacement.  The event trigger leaves a
`.xls` key unchanged as its error-log key, and replacement is global
substring replacement, so a key with an inner `.xls`/`.xlsx` occurrence is
rewritten everywhere, not just at the suffix. -/
theorem c2_counterexample :
    eventErrorKey "data.xls".toList = "data.xls".toList ∧
    "data.xls".toList ≠ "data_error.log".toList ∧
    destinationKey "a.xls.xlsx".toList = "a.json.json".toList ∧
    "a.json.json".toList ≠ "a.xls.json".toList := by
  refine ⟨by decide, by decide, by decide, by decide⟩

/-- C2 (amended): for source keys `p ++ suffix` whose stem `p` has no suffix
prefix-comparable with `.xls` (so the trailing suffix is the only
replacement site), both triggers accept the key; the destination key is the
source with the suffix replaced by `.json` under both triggers; the HTTP
trigger's error key replaces the suffix with `_error.log` for both
suffixes; the event trigger's error key does so only for `.xlsx` — a `.xls`
key is left unchanged. -/
theorem c2_trigger_keys (p : List Char) (hp : scanSafe ".xls".toList p) :
    acceptedKey (String.mk (p ++ ".xlsx".toList)) = true ∧
    acceptedKey (String.mk (p ++ ".xls".toList)) = true ∧
    destinationKey (p ++ ".xlsx".toList) = p ++ ".json".toList ∧
    destinationKey (p ++ ".xls".toList) = p ++ ".json".toList ∧
    httpErrorKey (p ++ ".xlsx".toList) = p ++ "_error.log".toList ∧
    httpErrorKey (p ++ ".xls".toList) = p ++ "_error.log".toList ∧
    eventErrorKey (p ++ ".xlsx".toList) = p ++ "_error.log".toList ∧
    eventErrorKey (p ++ ".xls".toList) = p ++ ".xls".toList := by
  have hsub5 : ".xls".toList <+: ".xlsx".toList := ⟨['x'], rfl⟩
  have hsub4 : ".xls".toList <+: ".xls".toList := List.prefix_refl _
  refine ⟨?_, ?_, ?_, ?_, ?_, ?_, ?_, ?_⟩
  · unfold acceptedKey pyEndsWith
    have h : ".xlsx".toList.isSuffixOf (p ++ ".xlsx".toList) = true :=
      List.isSuffixOf_iff_suffix.mpr (List.suffix_append _ _)
    simp [h]
  · unfold acceptedKey pyEndsWith
    have h : ".xls".toList.isSuffixOf (p ++ ".xls".toList) = true :=
      List.isSuffixOf_iff_suffix.mpr (List.suffix_append _ _)
    simp [h]
  · unfold destinationKey
    rw [pyReplace_append_of_scanSafe _ _ ".xls".toList hsub5 p _ hp,
      show pyReplace ".xlsx".toList ".json".toList ".xlsx".toList = ".json".toList by decide,
      pyReplace_append_of_scanSafe _ _ ".xls".toList hsub4 p _ hp,
      show pyReplace ".xls".toList ".json".toList ".json".toList = ".json".toList by decide]
  · unfold destinationKey
    rw [pyReplace_append_of_scanSafe _ _ ".xls".toList hsub5 p _ hp,
      show pyReplace ".xlsx".toList ".json".toList ".xls".toList = ".xls".toList by decide,
      pyReplace_append_of_scanSafe _ _ ".xls".toList hsub4 p _ hp,
      show pyReplace ".xls".toList ".json".toList ".xls".toList = ".json".toList by decide]
  · unfold httpErrorKey
    rw [pyReplace_append_of_scanSafe _ _ ".xls".toList hsub5 p _ hp,
      show pyReplace ".xlsx".toList "_error.log".toList ".xlsx".toList = "_error.log".toList
        by decide,
      pyReplace_append_of_scanSafe _ _ ".xls".toList hsub4 p _ hp,
      show pyReplace ".xls".toList "_error.log".toList "_error.log".toList = "_error.log".toList
        by decide]
  · unfold httpErrorKey
    rw [pyReplace_append_of_scanSafe _ _ ".xls".toList hsub5 p _ hp,
      show pyReplace ".xlsx".toList "_error.log".toList ".xls".toList = ".xls".toList by decide,
      pyReplace_append_of_scanSafe _ _ ".xls".toList hsub4 p _ hp,
      show pyReplace ".xls".toList "_error.log".toList ".xls".toList = "_error.log".toList
        by decide]
  · unfold eventErrorKey
    rw [pyReplace_append_of_scanSafe _ _ ".xls".toList hsub5 p _ hp,
      show pyReplace ".xlsx".toList "_error.log".toList ".xlsx".toList = "_error.log".toList
        by decide]
  · unfold eventErrorKey
    rw [pyReplace_append_of_scanSafe _ _ ".xls".toList hsub5 p _ hp,
      show pyReplace ".xlsx".toList "_error.log".toList ".xls".toList = ".xls".toList by decide]

/-- C2 witness: the key computations at the stem `data`. -/
theorem c2_witness :
    destinationKey ("data".toList ++ ".xlsx".toList) = "data".toList ++ ".json".toList :=
  (c2_trigger_keys "data".toList (by decide)).2.2.1

/-- C8 (counterexample): a valid but empty JSON object body is falsy in
Python, so the HTTP trigger answers it with the Invalid JSON payload error,
not the Missing required parameters error the claim states for bodies
missing both fields. -/
theorem c8_empty_object_counterexample :
    convert_xlsx_to_json_http envBase (some (Json.obj [])) =
      (400, Json.obj [("error", Json.str "Invalid JSON payload")]) ∧
    Json.obj [("error", Json.str "Invalid JSON payload")] ≠
      Json.obj [("error", Json.str "Missing required parameters")] :=
  ⟨rfl, by simp⟩

/-- C8 (amended): a missing (unparseable) body or a falsy one — including
the empty object — yields 400 Invalid JSON payload; a truthy object with
`bucket` or `name` absent or falsy yields 400 Missing required parameters;
a truthy object with both fields non-empty strings yields 200 with the
parser's return value under `message` when the parser returns, and 500 with
the exception text when the parser raises; a truthy non-object body yields
500 (the `.get` attribute error). -/
theorem c8_http_responses (env : Env) :
    (convert_xlsx_to_json_http env none =
      (400, Json.obj [("error", Json.str "Invalid JSON payload")])) ∧
    (∀ j, pyFalsy j = true → convert_xlsx_to_json_http env (some j) =
      (400, Json.obj [("error", Json.str "Invalid JSON payload")])) ∧
    (∀ kvs, pyFalsy (Json.obj kvs) = false →
      (optFalsy (kvs.lookup "bucket") = true ∨ optFalsy (kvs.lookup "name") = true) →
      convert_xlsx_to_json_http env (some (Json.obj kvs)) =
        (400, Json.obj [("error", Json.str "Missing required parameters")])) ∧
    (∀ kvs s v r t, pyFalsy (Json.obj kvs) = false →
      kvs.lookup "bucket" = some v → pyFalsy v = false →
      kvs.lookup "name" = some (Json.str s) → pyFalsy (Json.str s) = false →
      parse env s = Except.ok (r, t) →
      convert_xlsx_to_json_http env (some (Json.obj kvs)) =
        (200, Json.obj [("message", pyValToJson r)])) ∧
    (∀ kvs s v e, pyFalsy (Json.obj kvs) = false →
      kvs.lookup "bucket" = some v → pyFalsy v = false →
      kvs.lookup "name" = some (Json.str s) → pyFalsy (Json.str s) = false →
      parse env s = Except.error e →
      convert_xlsx_to_json_http env (some (Json.obj kvs)) =
        (500, Json.obj [("error", Json.str e)])) ∧
    (∀ s xs, pyFalsy (Json.str s) = false → pyFalsy (Json.arr xs) = false →
      (convert_xlsx_to_json_http env (some (Json.str s))).1 = 500 ∧
      (convert_xlsx_to_json_http env (some (Json.arr xs))).1 = 500) := by
  refine ⟨rfl, ?_, ?_, ?_, ?_, ?_⟩
  · intro j hj
    unfold convert_xlsx_to_json_http
    simp [hj]
  · intro kvs hkvs hor
    unfold convert_xlsx_to_json_http
    rcases hor with h | h <;> simp [hkvs, h]
  · intro kvs s v r t hkvs hb hbv hn hnv hp
    unfold convert_xlsx_to_json_http
    simp only [hkvs, hb, hn, Bool.false_eq_true, if_false, optFalsy, hbv, hnv,
      Bool.or_self, Option.getD_some]
    simp only [pyStrJson, hp]
  · intro kvs s v e hkvs hb hbv hn hnv hp
    unfold convert_xlsx_to_json_http
    simp only [hkvs, hb, hn, Bool.false_eq_true, if_false, optFalsy, hbv, hnv,
      Bool.or_self, Option.getD_some]
    simp only [pyStrJson, hp]
  · intro s xs hs hxs
    constructor
    · unfold convert_xlsx_to_json_http
      simp [hs]
    · unfold convert_xlsx_to_json_http
      simp [hxs]

/-- C8 witness: a truthy object missing `name` answers 400 Missing required
parameters. -/
theorem c8_witness :
    convert_xlsx_to_json_http envBase (some (Json.obj [("bucket", Json.str "b")])) =
      (400, Json.obj [("error", Json.str "Missing required parameters")]) :=
  (c8_http_responses envBase).2.2.1 [("bucket", Json.str "b")] rfl (Or.inr rfl)

end GCPXLSXParser
